import Mathlib

/-!
Shallow embedding of the `data-agent-skills` repository's two source files:

* `skills/data-engineering-core/templates/complete_etl_pipeline.py` —
  the `DataPipeline` ETL class (extract / transform / load over Polars
  LazyFrames, persisted into DuckDB tables `raw_events` and `daily_summary`).
* `scripts/build_skills.py` — the offline packaging step that scans for
  `SKILL.md` manifests, deduplicates them by front-matter name and writes a
  generated index.

Conventions of the embedding:
* timestamps are seconds since the Unix epoch (`Nat`); calendar dates are
  days since the epoch (`Nat`); the library datetime parser is modelled by
  an explicit ISO-8601 `YYYY-MM-DDTHH:MM:SS` parser;
* DOUBLE columns are modelled by exact rationals (`ℚ`);
* fallible operations return `Except`; a Polars `collect` that hits a
  strict-coercion failure is an `Except.error`;
* DuckDB tables are lists of typed rows inside a `Store` structure;
  the positional `INSERT INTO daily_summary SELECT * FROM summary` binds
  4 source columns against the 5-column table (`processed_at DEFAULT
  NOW()`) with no column list, which DuckDB rejects with a binder error
  (it does not default-fill trailing columns), so the load stage raises
  after the raw insert and before any summary row is written.
-/

set_option autoImplicit false

/- `Rat.add` is irreducible upstream; evaluating the pipeline's aggregate
sums on concrete inputs needs it to reduce. -/
attribute [local semireducible] Rat.add

namespace ETL

/-! ## Calendar arithmetic (model of Python `datetime` / Polars temporal types) -/

/-- Gregorian leap-year test. -/
def isLeap (y : Nat) : Bool := (y % 4 == 0 && y % 100 != 0) || (y % 400 == 0)

/-- Number of days in month `m` (1–12) of year `y`. -/
def daysInMonth (y m : Nat) : Nat :=
  if m = 2 then (if isLeap y then 29 else 28)
  else if m = 4 ∨ m = 6 ∨ m = 9 ∨ m = 11 then 30
  else 31

/-- Days between 1970-01-01 and the start of year `y` (for `y ≥ 1970`). -/
def daysBeforeYear (y : Nat) : Nat :=
  ((List.range (y - 1970)).map (fun i => if isLeap (1970 + i) then 366 else 365)).sum

/-- Days between the start of year `y` and the start of its month `m`. -/
def daysBeforeMonth (y m : Nat) : Nat :=
  ((List.range (m - 1)).map (fun i => daysInMonth y (i + 1))).sum

/-- Day number (days since 1970-01-01) of the calendar date `y-m-d`. -/
def epochDay (y m d : Nat) : Nat := daysBeforeYear y + daysBeforeMonth y m + (d - 1)

/-- Seconds since the Unix epoch of the datetime `y-m-d hh:mi:ss`. -/
def epochSeconds (y m d hh mi ss : Nat) : Nat :=
  epochDay y m d * 86400 + hh * 3600 + mi * 60 + ss

/-- Calendar date (day number) of a timestamp: model of `.dt.date()` and of
the DATE value DuckDB derives from a TIMESTAMP. -/
def toDate (t : Nat) : Nat := t / 86400

/-! ## ISO-8601 datetime parsing (model of Polars `str.to_datetime`) -/

/-- Split a character list at every occurrence of `c` (the separators are
dropped; the result is never empty). -/
def splitOnChar (c : Char) : List Char → List (List Char)
  | [] => [[]]
  | x :: xs =>
    match splitOnChar c xs with
    | [] => [[]]
    | g :: gs => if x = c then [] :: g :: gs else (x :: g) :: gs

/-- Value of a decimal digit character, `none` for a non-digit. -/
def digitVal? (c : Char) : Option Nat :=
  if '0' ≤ c ∧ c ≤ '9' then some (c.toNat - '0'.toNat) else none

/-- Read a non-empty all-digit character list as a decimal number. -/
def digitsToNat? : List Char → Option Nat
  | [] => none
  | cs => cs.foldl (fun acc c => acc.bind (fun n => (digitVal? c).map (fun d => n * 10 + d))) (some 0)

/-- Range validation for a parsed datetime (the model covers post-1970
datetimes, which is all the pipeline's data uses). -/
def validDatetime (y m d hh mi ss : Nat) : Bool :=
  decide (1970 ≤ y ∧ 1 ≤ m ∧ m ≤ 12 ∧ 1 ≤ d ∧ d ≤ daysInMonth y m ∧
          hh < 24 ∧ mi < 60 ∧ ss < 60)

/-- Model of the library datetime coercion applied by
`pl.col("timestamp").str.to_datetime()`: parse an ISO-8601
`YYYY-MM-DDTHH:MM:SS` string into seconds since the Unix epoch, `none` on a
malformed string. -/
def parseDatetime (s : String) : Option Nat :=
  match splitOnChar 'T' s.data with
  | [ds, ts] =>
    match splitOnChar '-' ds, splitOnChar ':' ts with
    | [ys, ms, dds], [hs, mis, sss] => do
      let y ← digitsToNat? ys
      let m ← digitsToNat? ms
      let d ← digitsToNat? dds
      let hh ← digitsToNat? hs
      let mi ← digitsToNat? mis
      let ss ← digitsToNat? sss
      if validDatetime y m d hh mi ss then some (epochSeconds y m d hh mi ss) else none
    | _, _ => none
  | _ => none

/-! ## Row types -/

/-- A row of the source file as `extract` scans it (the input shape of
`raw_events` data): `value` and `timestamp` are nullable columns and
`timestamp` is still a string before coercion.  DOUBLE values are modelled
as exact rationals. -/
structure InputRow where
  id : String
  event_type : String
  value : Option ℚ
  timestamp : Option String
  metadata : String
deriving DecidableEq

/-- A row after the `with_columns` step of `DataPipeline.transform`:
`value` has been `fill_null(0)`-ed and `timestamp` coerced to a datetime
(`none` when the input cell was null). -/
structure MidRow where
  id : String
  event_type : String
  value : ℚ
  timestamp : Option Nat
  metadata : String
deriving DecidableEq

/-- A fully transformed event row, as inserted into `raw_events`. -/
structure EventRow where
  id : String
  event_type : String
  value : ℚ
  timestamp : Nat
  metadata : String
deriving DecidableEq

/-! ## Transformation stage (`DataPipeline.transform`) -/

/-- The pipeline's lower bound on timestamps: `datetime(2024, 1, 1)`. -/
def lowerBound : Nat := epochSeconds 2024 1 1 0 0 0

/-- One row of the `with_columns` step: `pl.col("timestamp").str.to_datetime()`
(strict, the Polars default: the first malformed string fails the whole
materialization, while a null cell stays null) and
`pl.col("value").fill_null(0)`. -/
def coerceRow (r : InputRow) : Except Unit MidRow :=
  match r.timestamp with
  | none => .ok ⟨r.id, r.event_type, r.value.getD 0, none, r.metadata⟩
  | some s =>
    match parseDatetime s with
    | some t => .ok ⟨r.id, r.event_type, r.value.getD 0, some t, r.metadata⟩
    | none => .error ()

/-- The `with_columns` step over the whole frame; with strict coercion any
malformed timestamp string aborts the materialization. -/
def fillCoerce : List InputRow → Except Unit (List MidRow)
  | [] => .ok []
  | r :: rs =>
    match coerceRow r with
    | .error e => .error e
    | .ok m =>
      match fillCoerce rs with
      | .error e => .error e
      | .ok ms => .ok (m :: ms)

/-- `.filter(pl.col("value") > 0)`. -/
def posFilter (df : List MidRow) : List MidRow :=
  df.filter (fun r => decide (0 < r.value))

/-- `.filter(pl.col("timestamp") >= datetime(2024, 1, 1))`: a comparison
against a null timestamp is null, and `filter` drops rows whose predicate
is null, so null-timestamp rows are dropped here. -/
def dateFilter (df : List MidRow) : List EventRow :=
  df.filterMap (fun r =>
    match r.timestamp with
    | some t => if lowerBound ≤ t then some ⟨r.id, r.event_type, r.value, t, r.metadata⟩ else none
    | none => none)

/-- `DataPipeline.transform` followed by materialization of the resulting
lazy frame: coercion/fill, then the positivity filter, then the date
filter, in the order the source composes them. -/
def transform (df : List InputRow) : Except Unit (List EventRow) :=
  (fillCoerce df).map (fun mid => dateFilter (posFilter mid))

/-! ## The embedded store (DuckDB tables) -/

/-- A row of the `daily_summary` table; `processed_at` is the
`TIMESTAMP DEFAULT NOW()` column filled at insertion time. -/
structure SummaryRow where
  date : Nat
  event_type : String
  total_value : ℚ
  event_count : Nat
  processed_at : Nat
deriving DecidableEq

/-- State of the embedded DuckDB store: the two tables of
`_init_duckdb_tables`, each with an existence flag (for
`CREATE TABLE IF NOT EXISTS`) and its rows. -/
structure Store where
  rawExists : Bool
  raw : List EventRow
  sumExists : Bool
  summary : List SummaryRow
deriving DecidableEq

/-- `DataPipeline._init_duckdb_tables`: `CREATE TABLE IF NOT EXISTS` for
`raw_events` and `daily_summary`.  An existing table is left untouched, a
missing one is created empty; the statement never errors (it is total). -/
def initTables (s : Store) : Store :=
  { rawExists := true
    raw := if s.rawExists then s.raw else []
    sumExists := true
    summary := if s.sumExists then s.summary else [] }

/-- `INSERT INTO raw_events SELECT * FROM df`: append-only insert. -/
def insertRaw (s : Store) (df : List EventRow) : Store :=
  { s with raw := s.raw ++ df }

/-! ## Load stage (`DataPipeline.load`) -/

/-- A row of the summary frame computed in `load` (and also the shape of a
`get_summary` result row: `SELECT date, event_type, total_value,
event_count`). -/
structure AggRow where
  date : Nat
  event_type : String
  total_value : ℚ
  event_count : Nat
deriving DecidableEq

/-- The group key of `group_by(pl.col("timestamp").dt.date().alias("date"),
"event_type")`. -/
def rowKey (r : EventRow) : Nat × String := (toDate r.timestamp, r.event_type)

/-- Distinct group keys in order of first occurrence; `seen` accumulates
the keys already emitted. -/
def firstKeysAux : List (Nat × String) → List (Nat × String) → List (Nat × String)
  | [], _ => []
  | k :: ks, seen =>
    if k ∈ seen then firstKeysAux ks seen else k :: firstKeysAux ks (k :: seen)

/-- The distinct group keys of a frame, in order of first occurrence. -/
def firstKeys (l : List (Nat × String)) : List (Nat × String) :=
  firstKeysAux l []

/-- The aggregate row of one group: `pl.col("value").sum()` aliased
`total_value` and `pl.col("id").count()` aliased `event_count` (ids are
non-null, so the count is the group size). -/
def aggRow (df : List EventRow) (k : Nat × String) : AggRow :=
  let g := df.filter (fun r => decide (rowKey r = k))
  ⟨k.1, k.2, (g.map (fun r => r.value)).sum, g.length⟩

/-- The summary frame computed by `load`:
`df.group_by(date, event_type).agg(sum value, count id).sort("date")`. -/
def summaryOf (df : List EventRow) : List AggRow :=
  List.insertionSort (fun a b => a.date ≤ b.date)
    ((firstKeys (df.map rowKey)).map (aggRow df))

/-- The DuckDB errors the load stage can raise. -/
inductive DbError where
  | binderError
deriving DecidableEq

/-- Number of columns of the `daily_summary` table: date, event_type,
total_value, event_count, processed_at. -/
def dailySummaryColumns : Nat := 5

/-- Number of columns of the summary frame computed in `load`: date,
event_type, total_value, event_count. -/
def summaryFrameColumns : Nat := 4

/-- `INSERT INTO daily_summary SELECT * FROM summary`: a positional insert
with no column list.  DuckDB binds such an insert only when the source
column count equals the table's; it does not default-fill trailing columns,
so with 4 source columns against the 5-column table (`processed_at
TIMESTAMP DEFAULT NOW()`) it raises a binder error — regardless of the row
count, since the check is static.  The (never reached) success branch
shows what a matching insert would store, `processed_at` filled with the
insertion time `now`. -/
def insertSummary (s : Store) (rows : List AggRow) (now : Nat) : Except DbError Store :=
  let stored :=
    rows.map (fun r => SummaryRow.mk r.date r.event_type r.total_value r.event_count now)
  if summaryFrameColumns = dailySummaryColumns then
    .ok { s with summary := s.summary ++ stored }
  else
    .error .binderError

/-- The statistics dictionary `load` (and `run`) would return. -/
structure LoadResult where
  events_loaded : Nat
  summary_rows : Nat
  timestamp : Nat
deriving DecidableEq

/-- `DataPipeline.load`: insert the materialized frame into `raw_events`
(succeeds), compute the daily summary frame, then attempt the summary
insert — which raises the binder error, so the exception propagates with
the raw rows already retained (the store component reflects the mutations
made before the raise) and the statistics dictionary is never returned. -/
def load (df : List EventRow) (s : Store) (now : Nat) :
    Except DbError LoadResult × Store :=
  let s1 := insertRaw s df
  let summary := summaryOf df
  match insertSummary s1 summary now with
  | .error e => (.error e, s1)
  | .ok s2 => (.ok ⟨df.length, summary.length, now⟩, s2)

/-! ## Read-side queries -/

/-- `DataPipeline.get_summary(days)` with `today` the value of
`CURRENT_DATE` (in days since the epoch):
`SELECT date, event_type, total_value, event_count FROM daily_summary
WHERE date >= CURRENT_DATE - INTERVAL 'days days' ORDER BY date DESC`. -/
def get_summary (days : Nat) (today : Nat) (s : Store) : List AggRow :=
  List.insertionSort (fun a b => b.date ≤ a.date)
    ((s.summary.filter
        (fun r => decide ((today : Int) - (days : Int) ≤ (r.date : Int)))).map
      (fun r => AggRow.mk r.date r.event_type r.total_value r.event_count))

/-- Maximum of a timestamp column, `none` on an empty table: the value of
`SELECT MAX(timestamp)`. -/
def maxTs : List Nat → Option Nat
  | [] => none
  | t :: ts => some (match maxTs ts with | none => t | some m => max t m)

/-- `DataPipeline.get_watermark("raw_events")`:
`SELECT MAX(timestamp) FROM raw_events`, returning the fetched value or
`None` when the aggregate is NULL (empty table).  The fetched timestamps
are datetime objects, which are always truthy in Python, so the source's
`result[0] if result and result[0] else None` is exactly this option
value.  The query is a plain SELECT: the store is not modified (the
function does not return a store). -/
def get_watermark (s : Store) : Option Nat :=
  maxTs (s.raw.map (fun r => r.timestamp))

/-! ## Orchestrator (`DataPipeline.run`) with explicit materialization count -/

/-- A lazy scan of the source returned by `extract` (`scan_csv` /
`scan_parquet`): no row is read until `.collect()`. -/
abbrev LazyRaw := List InputRow

/-- The lazy handle returned by `transform`: the default column operations
recorded over the source, still unmaterialized. -/
abbrev LazyTransformed := List InputRow

/-- `DataPipeline.extract`: every dispatch branch returns a lazy scan. -/
def extract (source : List InputRow) : LazyRaw := source

/-- The lazy part of `DataPipeline.transform`: records the column
operations, performs no materialization. -/
def transformLazy (df : LazyRaw) : LazyTransformed := df

/-- `.collect()` on the raw handle (used by `run` for the row-count log
line); `c` counts materializations. -/
def collectRaw (lf : LazyRaw) (c : Nat) : List InputRow × Nat := (lf, c + 1)

/-- `.collect()` on the transformed handle: the recorded operations run
now, so a strict-coercion failure surfaces here; `c` counts
materializations. -/
def collectTransformed (lf : LazyTransformed) (c : Nat) :
    Except Unit (List EventRow) × Nat := (transform lf, c + 1)

/-- The exceptions `run` re-raises: a Polars compute error from the strict
coercion at collect time, or the DuckDB binder error from the summary
insert in `load`. -/
inductive RunError where
  | computeError
  | binderError
deriving DecidableEq

/-- `DataPipeline.run`: extract, log the source row count (which calls
`raw.collect()`), transform lazily, collect, load.  The orchestrator does
not swallow exceptions: it logs and re-raises, so the result carries the
error and the store state at the time of the raise.  The second component
is the number of `.collect()` calls performed. -/
def run (source : List InputRow) (s : Store) (now : Nat) :
    (Except RunError LoadResult × Store) × Nat :=
  let raw := extract source
  -- logger.info(f"Source has ~{raw.collect().height} rows")
  let (srcRows, c1) := collectRaw raw 0
  let _height := srcRows.length
  let transformed := transformLazy raw
  -- result_df = transformed.collect(); load_result = self.load(result_df)
  let (res, c2) := collectTransformed transformed c1
  match res with
  | .error _ => ((.error .computeError, s), c2)
  | .ok df =>
    match load df s now with
    | (.error .binderError, s1) => ((.error .binderError, s1), c2)
    | (.ok r, s2) => ((.ok r, s2), c2)

/-! ## Construction and connection lifecycle -/

/-- The exceptions `DataPipeline.__init__`'s configuration loading raises:
`open(config_path)` raises FileNotFoundError on a missing file,
`json.load` raises JSONDecodeError on an unparsable one, and
`self.config["duckdb_path"]` raises KeyError when the key is absent.
These are the configuration-failure class of errors (the spec's
`ConfigError` taxonomy). -/
inductive InitError where
  | fileNotFound
  | jsonDecodeError
  | keyError
deriving DecidableEq

/-- A configuration file: `none` = missing file; `some none` = present but
not parsable as JSON; `some (some kvs)` = a parsed JSON object with string
keys and values. -/
abbrev ConfigFile := Option (Option (List (String × String)))

/-- Key lookup in a parsed JSON object (`self.config[k]`,
`None`-free: absence raises). -/
def lookupKey (kvs : List (String × String)) (k : String) : Option String :=
  (kvs.find? (fun p => p.1 == k)).map (fun p => p.2)

/-- Ledger of connection acquisitions and releases against the embedded
store. -/
structure ConnLog where
  opens : Nat
  closes : Nat
deriving DecidableEq

/-- `duckdb.connect(...)`: acquires one connection. -/
def connect (cs : ConnLog) : ConnLog := { cs with opens := cs.opens + 1 }

/-- `self.duckdb.close()`: releases one connection. -/
def closeConn (cs : ConnLog) : ConnLog := { cs with closes := cs.closes + 1 }

/-- Number of connections currently open. -/
def openConnections (cs : ConnLog) : Nat := cs.opens - cs.closes

/-- The configuration-loading part of `DataPipeline.__init__`: read and
parse the configuration file, then look up `"duckdb_path"` (the embedded
store's location — the key the spec calls `storage_path`).  The
`duckdb.connect` call is reached only after the lookup succeeds, so a
configuration failure leaves the connection ledger unchanged (no side
effect beyond reading the file). -/
def pipelineInit (file : ConfigFile) (cs : ConnLog) :
    Except InitError (List (String × String)) × ConnLog :=
  match file with
  | none => (.error .fileNotFound, cs)
  | some none => (.error .jsonDecodeError, cs)
  | some (some kvs) =>
    match lookupKey kvs "duckdb_path" with
    | none => (.error .keyError, cs)
    | some _ => (.ok kvs, connect cs)

/-- Whether the body of the `with` block ran to completion or raised. -/
inductive BodyOutcome where
  | normal
  | raised
deriving DecidableEq

/-- `with DataPipeline(path) as pipeline: <body>` for a valid
configuration: `__init__` calls `duckdb.connect` once; Python's `with`
statement runs `__exit__` — which calls `self.duckdb.close()` — on every
exit path, whether the body returned normally or raised.  The body itself
never opens or closes connections (no pipeline method does). -/
def withPipeline (cs : ConnLog) (outcome : BodyOutcome) : ConnLog × BodyOutcome :=
  let cs1 := connect cs
  let cs2 := closeConn cs1
  (cs2, outcome)

end ETL

namespace BuildSkills

/-! ## The packaging step (`scripts/build_skills.py`) -/

/-- One fold step of the dedup loop `seen.setdefault(name, dirp)` over an
insertion-ordered dict: a name already seen keeps its existing directory,
a new name is appended. -/
def dedupeStep (seen : List (String × String)) (nd : String × String) :
    List (String × String) :=
  if seen.any (fun x => x.1 == nd.1) then seen else seen ++ [nd]

/-- `seen = {}; for name, dirp in sources: seen.setdefault(name, dirp)` —
the manifest list deduplicated by front-matter name, first occurrence
winning.  `sources` is the `(name, parent-directory)` list in scan order;
the copy loop then copies exactly the directories stored in `seen`. -/
def dedupeFirst (sources : List (String × String)) : List (String × String) :=
  sources.foldl dedupeStep []

/-- Lexicographic comparison of character lists (Python string
comparison). -/
def charListLe : List Char → List Char → Bool
  | [], _ => true
  | _ :: _, [] => false
  | a :: as, b :: bs => if a < b then true else if b < a then false else charListLe as bs

/-- Python `sorted` on strings. -/
def strLe (a b : String) : Bool := charListLe a.data b.data

/-- The names written to the generated index:
`for name in sorted(seen): lines.append(f'- `{name}`')`. -/
def indexNames (sources : List (String × String)) : List String :=
  List.insertionSort (fun a b => strLe a b = true)
    ((dedupeFirst sources).map (fun p => p.1))

/-- First manifest in scan order carrying the name `n`. -/
def firstOcc (sources : List (String × String)) (n : String) :
    Option (String × String) :=
  sources.find? (fun x => x.1 == n)

end BuildSkills

/-- Componentwise decidable equality for `Except` (needed to evaluate the
pipeline on concrete inputs). -/
instance {ε α : Type} [DecidableEq ε] [DecidableEq α] : DecidableEq (Except ε α) := fun a b =>
  match a, b with
  | .ok x, .ok y => if h : x = y then .isTrue (by rw [h]) else .isFalse (by simp [h])
  | .error x, .error y => if h : x = y then .isTrue (by rw [h]) else .isFalse (by simp [h])
  | .ok _, .error _ => .isFalse (by simp)
  | .error _, .ok _ => .isFalse (by simp)

namespace ETL

/-! ## Concrete inputs used by witnesses and counterexamples -/

/-- A store with no tables yet (a fresh database file). -/
def emptyStore : Store := ⟨false, [], false, []⟩

/-- The store right after `__init__`: both tables created, empty. -/
def store0 : Store := initTables emptyStore

/-- The single input row of the spec's end-to-end scenario. -/
def row0 : InputRow := ⟨"a", "click", some 5, some "2024-03-01T00:00:00", "\x7b\x7d"⟩

/-- The store after running the pipeline on `[row0]` against `store0`:
the transformed event (2024-03-01T00:00:00 is 1709251200 seconds since the
epoch) is inserted into `raw_events`, and `daily_summary` stays empty
because the summary insert raises the binder error. -/
def stAfterRun : Store :=
  ⟨true, [⟨"a", "click", 5, 1709251200, "\x7b\x7d"⟩], true, []⟩

/-- An input row with a null `value` and a timestamp before the 2024-01-01
lower bound. -/
def rNull : InputRow := ⟨"x", "purchase", none, some "2023-06-01T00:00:00", ""⟩

/-- The row `rNull` after the fill/coercion step. -/
def mNull : MidRow := ⟨"x", "purchase", 0, some (epochSeconds 2023 6 1 0 0 0), ""⟩

/-- An input row whose timestamp string fails datetime coercion. -/
def rBad : InputRow := ⟨"b", "click", some 1, some "not-a-date", ""⟩

/-- A post-transform event row (a one-row materialized table). -/
def e0 : EventRow := ⟨"a", "click", 5, lowerBound, ""⟩

/-- Event rows with increasing timestamps for the watermark scenario. -/
def w1 : EventRow := ⟨"w1", "t", 1, 100, ""⟩

/-- Second watermark event row. -/
def w2 : EventRow := ⟨"w2", "t", 1, 200, ""⟩

/-- Third watermark event row. -/
def w3 : EventRow := ⟨"w3", "t", 1, 300, ""⟩

/-- A store with both tables existing and rows present. -/
def storeNE : Store := ⟨true, [e0], true, [⟨19723, "click", 5, 1, 0⟩]⟩

end ETL

namespace ETL

/-! ## Claim theorems -/

/-- C9: running the table-initialization step (`CREATE TABLE IF NOT
EXISTS` for both tables) twice against the same store does not error (the
operation is total) and does not alter any rows already present in
`raw_events` or `daily_summary`. -/
theorem C9_table_init_idempotent (s : Store) :
    initTables (initTables s) = initTables s ∧
    (s.rawExists = true → (initTables s).raw = s.raw) ∧
    (s.sumExists = true → (initTables s).summary = s.summary) := by
  refine ⟨by simp [initTables], fun h => by simp [initTables, h],
    fun h => by simp [initTables, h]⟩

/-- Witness for C9 at a store whose tables exist and hold rows. -/
theorem C9_witness :
    initTables (initTables storeNE) = initTables storeNE ∧
    (initTables storeNE).raw = storeNE.raw ∧
    (initTables storeNE).summary = storeNE.summary :=
  ⟨(C9_table_init_idempotent storeNE).1,
   (C9_table_init_idempotent storeNE).2.1 rfl,
   (C9_table_init_idempotent storeNE).2.2 rfl⟩

/-- C6: `with DataPipeline(...)` acquires the store connection exactly
once at construction (`__init__` calls `duckdb.connect`) and releases it
exactly once on every exit path of the scope (`__exit__` calls
`self.duckdb.close()` whether the body returned or raised); starting from
zero open connections, entering and immediately leaving the scope leaves
zero open connections. -/
theorem C6_connection_scoped (cs : ConnLog) (outcome : BodyOutcome) :
    (withPipeline cs outcome).1.opens = cs.opens + 1 ∧
    (withPipeline cs outcome).1.closes = cs.closes + 1 ∧
    openConnections (withPipeline ⟨0, 0⟩ outcome).1 = 0 :=
  ⟨rfl, rfl, rfl⟩

/-- C7: `get_watermark("raw_events")` returns `None` on an empty table,
and after inserting three events with strictly increasing timestamps it
returns the greatest of them; the query is read-only (it is a function of
the store that returns no store). -/
theorem C7_watermark (s : Store) (hempty : s.raw = [])
    (e1 e2 e3 : EventRow) (h12 : e1.timestamp < e2.timestamp)
    (h23 : e2.timestamp < e3.timestamp) :
    get_watermark s = none ∧
    get_watermark (insertRaw s [e1, e2, e3]) = some e3.timestamp := by
  constructor
  · simp [get_watermark, hempty, maxTs]
  · have h3 : maxTs [e1.timestamp, e2.timestamp, e3.timestamp] =
        some (max e1.timestamp (max e2.timestamp e3.timestamp)) := rfl
    have hm : max e1.timestamp (max e2.timestamp e3.timestamp) = e3.timestamp := by
      rw [Nat.max_eq_right (Nat.le_of_lt h23),
          Nat.max_eq_right (Nat.le_of_lt (Nat.lt_trans h12 h23))]
    simp only [get_watermark, insertRaw, hempty, List.nil_append, List.map_cons,
      List.map_nil]
    rw [h3, hm]

/-- Witness for C7: fresh store, timestamps 100 < 200 < 300. -/
theorem C7_witness :
    store0.raw = [] ∧ w1.timestamp < w2.timestamp ∧ w2.timestamp < w3.timestamp ∧
    (get_watermark store0 = none ∧
     get_watermark (insertRaw store0 [w1, w2, w3]) = some w3.timestamp) :=
  ⟨rfl, by decide, by decide,
   C7_watermark store0 rfl w1 w2 w3 (by decide) (by decide)⟩

/-- C8: constructing the pipeline fails during configuration loading
exactly when the file is missing, unparsable, or lacks the store-location
key (`duckdb_path`, which the spec names `storage_path`), and such a
failure has no side effect beyond reading the file: the store connection
is never opened.  The raised exceptions (FileNotFoundError,
JSONDecodeError, KeyError) are the configuration-failure class the spec's
taxonomy calls `ConfigError`. -/
theorem C8_config_failures (file : ConfigFile) (cs : ConnLog) :
    ((∃ e, (pipelineInit file cs).1 = Except.error e) ↔
      file = none ∨ file = some none ∨
      ∃ kvs, file = some (some kvs) ∧ lookupKey kvs "duckdb_path" = none) ∧
    (∀ e, (pipelineInit file cs).1 = Except.error e → (pipelineInit file cs).2 = cs) := by
  rcases file with _ | f
  · exact ⟨by simp [pipelineInit], fun e _ => rfl⟩
  · rcases f with _ | kvs
    · exact ⟨by simp [pipelineInit], fun e _ => rfl⟩
    · rcases h : lookupKey kvs "duckdb_path" with _ | v
      · exact ⟨by simp [pipelineInit, h], fun e _ => by simp [pipelineInit, h]⟩
      · constructor
        · simp [pipelineInit, h]
        · intro e he
          simp [pipelineInit, h] at he

/-- Witness for C8 at a missing configuration file. -/
theorem C8_witness :
    (∃ e, (pipelineInit none ⟨0, 0⟩).1 = Except.error e) ∧
    (pipelineInit none ⟨0, 0⟩).2 = ⟨0, 0⟩ :=
  ⟨(C8_config_failures none ⟨0, 0⟩).1.mpr (Or.inl rfl),
   (C8_config_failures none ⟨0, 0⟩).2 InitError.fileNotFound rfl⟩

/-- C5 (code bug): `run` materializes the lazy handle twice, not once —
once in the row-count log line (`raw.collect().height`) and once at the
collection point before `load`.  `extract` and the lazy part of
`transform` themselves perform no materialization (they do not touch the
counter), but the orchestrator's collect count is 2 on every input, where
the claim requires exactly 1. -/
theorem C5_double_materialization (source : List InputRow) (s : Store) (now : Nat) :
    (run source s now).2 = 2 := by
  rcases htr : transform source with e | df
  · simp [run, extract, transformLazy, collectRaw, collectTransformed, htr]
  · rcases hl : load df s now with ⟨lres, s2⟩
    rcases lres with e2 | r
    · cases e2
      simp [run, extract, transformLazy, collectRaw, collectTransformed, htr, hl]
    · simp [run, extract, transformLazy, collectRaw, collectTransformed, htr, hl]

end ETL

namespace ETL

/-- If any row of the frame fails timestamp coercion, the whole
materialization of the `with_columns` step fails (strict coercion). -/
theorem fillCoerce_error_of_mem {df : List InputRow} {r : InputRow}
    (hr : r ∈ df) (hcr : coerceRow r = Except.error ()) :
    fillCoerce df = Except.error () := by
  induction df with
  | nil => cases hr
  | cons a l ih =>
    rcases List.mem_cons.mp hr with rfl | hmem
    · simp only [fillCoerce, hcr]
    · cases hca : coerceRow a with
      | error e => simp only [fillCoerce, hca]
      | ok m => simp only [fillCoerce, hca, ih hmem]

/-- C2 (counterexample): a row with a null `value` and a timestamp before
the 2024-01-01 lower bound is NOT removed by the date filter, contrary to
the claim: after the fill/coercion step its value is 0, and the positivity
filter — which the source applies first — already removes it, so the row
never reaches the date filter. -/
theorem C2_counterexample :
    rNull.value = none ∧
    coerceRow rNull = Except.ok mNull ∧
    mNull.timestamp = some (epochSeconds 2023 6 1 0 0 0) ∧
    epochSeconds 2023 6 1 0 0 0 < lowerBound ∧
    posFilter [mNull] = [] ∧
    dateFilter (posFilter [mNull]) = [] :=
  ⟨rfl, by decide, rfl, by decide, rfl, rfl⟩

/-- C2 (amended): a row with a null `value` column never appears in the
final materialized output, but the removing filter is the positivity
filter in every case, not the date filter: the fill step turns the null
into 0, which fails `value > 0` regardless of the timestamp (the source
applies the positivity filter before the date filter).  If the row's
timestamp cell fails coercion the whole transform errors instead; either
way the row is absent from any successful output. -/
theorem C2_null_value_rows (r : InputRow) (h : r.value = none) :
    (∀ m, coerceRow r = Except.ok m → m.value = 0 ∧ posFilter [m] = []) ∧
    (transform [r] = Except.error () ∨ transform [r] = Except.ok []) := by
  have hfill : ∀ m, coerceRow r = Except.ok m → m.value = 0 ∧ posFilter [m] = [] := by
    intro m hm
    have hv : m.value = 0 := by
      cases hts : r.timestamp with
      | none =>
        simp only [coerceRow, hts, Except.ok.injEq] at hm
        subst hm
        simp [h]
      | some str =>
        cases hp : parseDatetime str with
        | none => simp [coerceRow, hts, hp] at hm
        | some t =>
          simp only [coerceRow, hts, hp, Except.ok.injEq] at hm
          subst hm
          simp [h]
    refine ⟨hv, ?_⟩
    simp [posFilter, hv]
  refine ⟨hfill, ?_⟩
  cases hc : coerceRow r with
  | error e =>
    left
    cases e
    simp [transform, fillCoerce, hc, Except.map]
  | ok m =>
    right
    have : fillCoerce [r] = Except.ok [m] := by simp [fillCoerce, hc]
    simp [transform, this, Except.map, (hfill m hc).2, dateFilter]

/-- Witness for the amended C2 at the concrete null-value row `rNull`. -/
theorem C2_witness :
    rNull.value = none ∧
    ((∀ m, coerceRow rNull = Except.ok m → m.value = 0 ∧ posFilter [m] = []) ∧
     (transform [rNull] = Except.error () ∨ transform [rNull] = Except.ok [])) :=
  ⟨rfl, C2_null_value_rows rNull rfl⟩

/-- C3 (counterexample): a timestamp cell whose string fails datetime
coercion does NOT become a missing value — with the strict coercion the
source uses (`str.to_datetime()` with the Polars default `strict=True`),
materializing the transformed handle aborts with an error. -/
theorem C3_counterexample :
    rBad.timestamp = some "not-a-date" ∧
    parseDatetime "not-a-date" = none ∧
    transform [rBad] = Except.error () :=
  ⟨rfl, rfl, rfl⟩

/-- C3 (amended): for every input containing a timestamp cell whose string
fails datetime coercion, materializing the transformed handle fails with
an error (cell-level fail-soft does not happen; only an already-null
timestamp cell flows through as missing and is then dropped by the date
filter). -/
theorem C3_strict_coercion_aborts (df : List InputRow) (r : InputRow) (hr : r ∈ df)
    (str : String) (hs : r.timestamp = some str) (hbad : parseDatetime str = none) :
    transform df = Except.error () := by
  have hcr : coerceRow r = Except.error () := by
    simp only [coerceRow, hs, hbad]
  simp [transform, fillCoerce_error_of_mem hr hcr, Except.map]

/-- Witness for the amended C3 at the concrete malformed row `rBad`. -/
theorem C3_witness :
    rBad ∈ [rBad] ∧ rBad.timestamp = some "not-a-date" ∧
    parseDatetime "not-a-date" = none ∧
    transform [rBad] = Except.error () :=
  ⟨List.mem_singleton.mpr rfl, rfl, rfl,
   C3_strict_coercion_aborts [rBad] rBad (List.mem_singleton.mpr rfl)
     "not-a-date" rfl rfl⟩

end ETL

namespace ETL

/-- C1 (code bug): `load(T)` never produces the claimed aggregate rows.
The raw insert succeeds, but `INSERT INTO daily_summary SELECT * FROM
summary` binds 4 source columns against the 5-column table with no
column list, which DuckDB rejects with a binder error (it does not
default-fill trailing columns), so `load` raises for every table `T`:
the store retains the raw rows, the summary table is left exactly as it
was, and a subsequent `get_summary` can only ever see pre-existing
summary rows, never the aggregates of `T`.  The claim — the spec's
testable property, and what `load`'s own docstring ("Returns: Dict with
load statistics") promises — is the intent; the column-count mismatch is
the slip. -/
theorem C1_load_raises (T : List EventRow) (s : Store) (now : Nat) :
    (load T s now).1 = Except.error DbError.binderError ∧
    (load T s now).2 = insertRaw s T ∧
    (load T s now).2.summary = s.summary :=
  ⟨rfl, rfl, rfl⟩

end ETL

namespace BuildSkills

/-- Characterization of the dedup fold: an entry is in the fold result iff
it was already in the accumulator, or it is the first occurrence of its
name among the remaining sources and its name is not already taken by the
accumulator. -/
theorem mem_foldl_dedupeStep (l : List (String × String)) :
    ∀ (acc : List (String × String)) (p : String × String),
      p ∈ l.foldl dedupeStep acc ↔
        p ∈ acc ∨ (firstOcc l p.1 = some p ∧ p.1 ∉ acc.map Prod.fst) := by
  induction l with
  | nil =>
    intro acc p
    simp [firstOcc]
  | cons q qs ih =>
    intro acc p
    rw [List.foldl_cons, ih (dedupeStep acc q) p]
    by_cases hq : acc.any (fun x => x.1 == q.1)
    · have hstep : dedupeStep acc q = acc := by simp [dedupeStep, hq]
      rw [hstep]
      have hqkeys : q.1 ∈ acc.map Prod.fst := by
        rw [List.any_eq_true] at hq
        obtain ⟨x, hx, hxq⟩ := hq
        exact List.mem_map.mpr ⟨x, hx, by simpa using hxq⟩
      by_cases hpq : p.1 = q.1
      · have hpkeys : p.1 ∈ acc.map Prod.fst := by rwa [hpq]
        simp [hpkeys]
      · have hfo : firstOcc (q :: qs) p.1 = firstOcc qs p.1 := by
          rw [firstOcc, List.find?_cons_of_neg, firstOcc]
          simp only [beq_iff_eq]
          exact fun hh => hpq hh.symm
        rw [hfo]
    · have hqnot : q.1 ∉ acc.map Prod.fst := by
        intro hmem
        obtain ⟨x, hx, hxq⟩ := List.mem_map.mp hmem
        exact hq (List.any_eq_true.mpr ⟨x, hx, by simp [hxq]⟩)
      have hstep : dedupeStep acc q = acc ++ [q] := by simp [dedupeStep, hq]
      rw [hstep]
      by_cases hpq : p.1 = q.1
      · by_cases hpeq : p = q
        · subst hpeq
          have hfo : firstOcc (p :: qs) p.1 = some p :=
            List.find?_cons_of_pos _ (by simp)
          exact iff_of_true (Or.inl (List.mem_append.mpr (Or.inr (by simp))))
            (Or.inr ⟨hfo, hqnot⟩)
        · have hfo : firstOcc (q :: qs) p.1 = some q :=
            List.find?_cons_of_pos _ (by simp [hpq])
          have hlhs : p ∈ acc ++ [q] ↔ p ∈ acc := by
            simp [List.mem_append, hpeq]
          have hkeys : p.1 ∈ (acc ++ [q]).map Prod.fst := by
            simp [List.map_append, hpq]
          rw [hfo]
          constructor
          · rintro (hmem | ⟨_, hnotin⟩)
            · exact Or.inl (hlhs.mp hmem)
            · exact absurd hkeys hnotin
          · rintro (hmem | ⟨hsome, _⟩)
            · exact Or.inl (hlhs.mpr hmem)
            · exact absurd (Option.some.inj hsome).symm hpeq
      · have hpeq : p ≠ q := fun hh => hpq (by rw [hh])
        have hfo : firstOcc (q :: qs) p.1 = firstOcc qs p.1 := by
          rw [firstOcc, List.find?_cons_of_neg, firstOcc]
          simp only [beq_iff_eq]
          exact fun hh => hpq hh.symm
        have hlhs : p ∈ acc ++ [q] ↔ p ∈ acc := by
          simp [List.mem_append, hpeq]
        have hkeys : p.1 ∉ (acc ++ [q]).map Prod.fst ↔ p.1 ∉ acc.map Prod.fst := by
          simp [List.map_append, hpq]
        rw [hfo, hlhs, hkeys]

/-- An entry is kept by the dedup pass iff it is the first occurrence of
its name in the scanned sources. -/
theorem mem_dedupeFirst (sources : List (String × String)) (p : String × String) :
    p ∈ dedupeFirst sources ↔ firstOcc sources p.1 = some p := by
  rw [dedupeFirst, mem_foldl_dedupeStep]
  simp

/-- The names kept by the dedup pass are pairwise distinct. -/
theorem keys_nodup_foldl (l : List (String × String)) :
    ∀ acc, (acc.map Prod.fst).Nodup → ((l.foldl dedupeStep acc).map Prod.fst).Nodup := by
  induction l with
  | nil => exact fun acc h => h
  | cons q qs ih =>
    intro acc h
    rw [List.foldl_cons]
    apply ih
    by_cases hq : acc.any (fun x => x.1 == q.1)
    · simpa [dedupeStep, hq] using h
    · have hqnot : q.1 ∉ acc.map Prod.fst := by
        intro hmem
        obtain ⟨x, hx, hxq⟩ := List.mem_map.mp hmem
        exact hq (List.any_eq_true.mpr ⟨x, hx, by simp [hxq]⟩)
      have hstep : dedupeStep acc q = acc ++ [q] := by simp [dedupeStep, hq]
      rw [hstep, List.map_append, List.nodup_append]
      refine ⟨h, List.nodup_singleton _, ?_⟩
      intro a ha hb
      simp only [List.map_cons, List.map_nil, List.mem_singleton] at hb
      rw [hb] at ha
      exact hqnot ha

/-- C10: the packaging step deduplicates manifests by front-matter name
with the first occurrence winning — every kept entry is the first
occurrence of its name in scan order, every scanned name is kept — and
the generated index lists every copied name exactly once. -/
theorem C10_dedupe_first_wins (sources : List (String × String)) :
    (∀ p ∈ dedupeFirst sources, firstOcc sources p.1 = some p) ∧
    (∀ p ∈ sources, ∃ q ∈ dedupeFirst sources, q.1 = p.1) ∧
    (∀ n ∈ indexNames sources, (indexNames sources).count n = 1) := by
  refine ⟨fun p hp => (mem_dedupeFirst sources p).mp hp, fun p hp => ?_, fun n hn => ?_⟩
  · have hsome : (sources.find? (fun x => x.1 == p.1)).isSome :=
      List.find?_isSome.mpr ⟨p, hp, by simp⟩
    obtain ⟨a, ha⟩ := Option.isSome_iff_exists.mp hsome
    have hkey : a.1 = p.1 := by simpa using List.find?_some ha
    refine ⟨a, (mem_dedupeFirst sources a).mpr ?_, hkey⟩
    rw [firstOcc, hkey]
    exact ha
  · have hperm : List.Perm (indexNames sources) ((dedupeFirst sources).map Prod.fst) :=
      List.perm_insertionSort _ _
    rw [hperm.count_eq]
    have hnd : ((dedupeFirst sources).map Prod.fst).Nodup :=
      keys_nodup_foldl sources [] (by simp)
    exact List.count_eq_one_of_mem hnd (hperm.mem_iff.mp hn)

/-- Witness for C10: two manifests named "a" (directories d1 and d2, d1
first) and one named "b"; "a" keeps d1, both names are indexed once. -/
theorem C10_witness :
    ("a", "d2") ∈ [("a", "d1"), ("a", "d2"), ("b", "d3")] ∧
    (∀ p ∈ dedupeFirst [("a", "d1"), ("a", "d2"), ("b", "d3")],
      firstOcc [("a", "d1"), ("a", "d2"), ("b", "d3")] p.1 = some p) ∧
    (∀ p ∈ [("a", "d1"), ("a", "d2"), ("b", "d3")],
      ∃ q ∈ dedupeFirst [("a", "d1"), ("a", "d2"), ("b", "d3")], q.1 = p.1) ∧
    (∀ n ∈ indexNames [("a", "d1"), ("a", "d2"), ("b", "d3")],
      (indexNames [("a", "d1"), ("a", "d2"), ("b", "d3")]).count n = 1) :=
  ⟨by decide, C10_dedupe_first_wins [("a", "d1"), ("a", "d2"), ("b", "d3")]⟩

end BuildSkills

namespace ETL

/-- C4 (code bug): on the scenario's single row, `run` does not return
events_loaded = 1 and summary_rows = 1.  After inserting the transformed
event into `raw_events` it raises the DuckDB binder error at the
`daily_summary` insert (4 columns into 5, no column list), so the
statistics dictionary is never produced — contrary to the module's own
usage example, which prints `result['events_loaded']` — and
`get_summary(30)` has no summary row to return even with today equal to
the event's own date 2024-03-01.  (Independently of the crash, the
claim's window condition is also off: `date >= CURRENT_DATE - INTERVAL
'30 days'` would drop the row whenever today is after 2024-03-31, even
though such a today is on/after 2024-03-01.) -/
theorem C4_run_raises :
    run [row0] store0 7 = ((Except.error RunError.binderError, stAfterRun), 2) ∧
    get_summary 30 (epochDay 2024 3 1) stAfterRun = [] :=
  ⟨by decide, by decide⟩

end ETL
